import Mathlib

/-!
Verification development for the IndoMMLU evaluation scripts
(`indommlu_eval.py` and `indommlu_eval_reasoning.py`).

Strings from the Python code are modelled as Lean `String` / `List Char`
(a Python string is a sequence of code points, as is a Lean string).
The regex `\b([ABCDE])\b` of the reasoning script is modelled over ASCII:
a word character is an ASCII letter, a digit, or an underscore, and `\b`
holds at a position where exactly one side is a word character (string
edges count as non-word).  Python's `str.strip()` removes the ASCII
whitespace characters space, tab, newline, carriage return, vertical tab
and form feed from both ends; `pyStrip` mirrors that.
-/

/-- A dataset record, as read from `indoMMLU.jsonl`.  All fields the two
scripts touch are strings (the `id` field is carried through opaquely and
is modelled as a string as well). -/
structure QuestionItem where
  id : String
  subject : String
  level : String
  soal : String
  jawaban : String
  kunci : String
  sumber : String
  is_for_fewshot : String
deriving DecidableEq, Repr

/-- Python truthiness of `os.getenv(...)`: `None` and the empty string are
falsy, every other string is truthy (`if not os.getenv("OPENROUTER_API_KEY")`). -/
def hasKey : Option String → Bool
  | none => false
  | some s => !(s == "")

/-- The characters removed by Python `str.strip()` (ASCII fragment):
space, tab, newline, carriage return, vertical tab, form feed. -/
def isPySpace (c : Char) : Bool :=
  c == ' ' || c == '\t' || c == '\n' || c == '\r' ||
    c == Char.ofNat 11 || c == Char.ofNat 12

/-- Python `str.strip()`: drop leading and trailing whitespace. -/
def pyStrip (l : List Char) : List Char :=
  ((l.dropWhile isPySpace).reverse.dropWhile isPySpace).reverse

/-- The dataset filter of both scripts:
`[item for item in data if item['level'] == 'Seleksi PTN' and item['is_for_fewshot'] == '0']`. -/
def filterDataset (data : List QuestionItem) : List QuestionItem :=
  data.filter (fun item => item.level == "Seleksi PTN" && item.is_for_fewshot == "0")

/-- The prompt f-string of `evaluate_mcq` (`indommlu_eval.py`, lines 17–23). -/
def buildPrompt (item : QuestionItem) : String :=
  "Ini adalah soal " ++ item.subject ++ " untuk " ++ item.level ++
    ". Pilihlah salah satu jawaban yang dianggap benar!\n\n" ++
    item.soal ++ "\n" ++ item.jawaban ++
    "\n\nJawab HANYA dengan huruf pilihan saja (A, B, C, D, atau E). Jangan tambahkan penjelasan awal atau akhir. Hanya output huruf pilihan saja.\nJawaban:"

/-- The prompt f-string of `evaluate_mcq_reasoning`
(`indommlu_eval_reasoning.py`, lines 18–24); textually identical to the
direct variant's template. -/
def buildPromptReasoning (item : QuestionItem) : String :=
  "Ini adalah soal " ++ item.subject ++ " untuk " ++ item.level ++
    ". Pilihlah salah satu jawaban yang dianggap benar!\n\n" ++
    item.soal ++ "\n" ++ item.jawaban ++
    "\n\nJawab HANYA dengan huruf pilihan saja (A, B, C, D, atau E). Jangan tambahkan penjelasan awal atau akhir. Hanya output huruf pilihan saja.\nJawaban:"

/-- Membership in the pattern's character class `[ABCDE]`
(also Python's `predicted[0] in 'ABCDE'` for a one-character string). -/
def isAnswerLetter (c : Char) : Bool :=
  c == 'A' || c == 'B' || c == 'C' || c == 'D' || c == 'E'

/-- Regex word character `\w` (ASCII fragment): letter, digit or underscore. -/
def isWordChar (c : Char) : Bool :=
  c.isAlphanum || c == '_'

/-- Left word-boundary test for a match candidate: the character before the
candidate, or `none` at the start of the string.  Since the candidate itself
is a word character, `\b` holds exactly when the left neighbour is absent or
not a word character. -/
def leftOk : Option Char → Bool
  | none => true
  | some p => !isWordChar p

/-- Right word-boundary test: the list of characters after the candidate.
`\b` holds exactly when there is no next character or it is not a word
character. -/
def rightOk : List Char → Bool
  | [] => true
  | d :: _ => !isWordChar d

/-- `re.search(r'\b([ABCDE])\b', predicted)` as a left-to-right scan:
return the letter of the leftmost match, carrying the previous character to
decide the left word boundary. -/
def findStandalone : Option Char → List Char → Option Char
  | _, [] => none
  | prev, c :: rest =>
    if isAnswerLetter c && leftOk prev && rightOk rest then some c
    else findStandalone (some c) rest

/-- Lines 38–43 of `indommlu_eval_reasoning.py`: regex search on the
stripped final answer, else first character if it is a valid option, else
the stripped text itself. -/
def extractLetter (predicted : List Char) : List Char :=
  match findStandalone none predicted with
  | some c => [c]
  | none =>
    match predicted with
    | [] => []
    | c :: rest => if isAnswerLetter c then [c] else c :: rest

/-- The reasoning-variant answer extraction applied to the raw message
content: `predicted = ...content.strip()` followed by `extractLetter`. -/
def reasoningExtract (content : List Char) : List Char :=
  extractLetter (pyStrip content)

/-- `len(reasoning_content) if reasoning_content else 0` — Python truthiness:
`None` and the empty string both yield 0. -/
def pyTruthyLen : Option String → Nat
  | none => 0
  | some s => if s == "" then 0 else s.length

/-- The result record of the direct script: the dict built by
`evaluate_mcq` (lines 35–40) merged with the fields added by
`result.update(...)` in `main` (lines 86–92). -/
structure EvalResult where
  id : String
  predicted : List Char
  correct : String
  is_correct : Bool
  model : String
  subject : String
  soal : String
  jawaban : String
  sumber : String
deriving DecidableEq, Repr

/-- Construction of an `EvalResult` from a successful completion whose
message content is `content`: `predicted = response...content.strip()`,
`is_correct = predicted == item['kunci']`. -/
def mkResult (model : String) (item : QuestionItem) (content : String) : EvalResult :=
  let predicted := pyStrip content.data
  { id := item.id
    predicted := predicted
    correct := item.kunci
    is_correct := predicted == item.kunci.data
    model := model
    subject := item.subject
    soal := item.soal
    jawaban := item.jawaban
    sumber := item.sumber }

/-- The result record of the reasoning script: the dict built by
`evaluate_mcq_reasoning` (lines 45–53) merged with the fields added by
`result.update(...)` in `main` (lines 100–106). -/
structure ReasoningEvalResult where
  id : String
  predicted : List Char
  correct : String
  is_correct : Bool
  reasoning_content : Option String
  reasoning_length : Nat
  full_response : List Char
  model : String
  subject : String
  soal : String
  jawaban : String
  sumber : String
deriving DecidableEq, Repr

/-- Construction of a `ReasoningEvalResult` from a successful completion:
`content` is the message content and `rc` the optional
`reasoning_content` side-channel (`getattr(..., 'reasoning_content', None)`). -/
def mkReasoningResult (model : String) (item : QuestionItem) (content : String)
    (rc : Option String) : ReasoningEvalResult :=
  let predicted := pyStrip content.data
  let predicted_letter := extractLetter predicted
  { id := item.id
    predicted := predicted_letter
    correct := item.kunci
    is_correct := predicted_letter == item.kunci.data
    reasoning_content := rc
    reasoning_length := pyTruthyLen rc
    full_response := predicted
    model := model
    subject := item.subject
    soal := item.soal
    jawaban := item.jawaban
    sumber := item.sumber }

/-- The per-item loop of `main` in `indommlu_eval.py` (lines 81–117).
`beh` models the remote completion call for the item at 0-based position
`i`: `Except.ok content` is a successful response, `Except.error` a raised
exception.  The `try ... except ... continue` makes a failing item
contribute nothing; a succeeding item's result is appended and the loop
moves to the next item. -/
def runLoop (model : String) (beh : Nat → QuestionItem → Except String String) :
    List QuestionItem → Nat → List EvalResult
  | [], _ => []
  | item :: rest, i =>
    match beh i item with
    | .ok content => mkResult model item content :: runLoop model beh rest (i + 1)
    | .error _ => runLoop model beh rest (i + 1)

/-- The per-item loop of `main` in `indommlu_eval_reasoning.py`
(lines 95–138); the completion now also carries the optional
`reasoning_content` side-channel. -/
def runLoopReasoning (model : String)
    (beh : Nat → QuestionItem → Except String (String × Option String)) :
    List QuestionItem → Nat → List ReasoningEvalResult
  | [], _ => []
  | item :: rest, i =>
    match beh i item with
    | .ok (content, rc) => mkReasoningResult model item content rc :: runLoopReasoning model beh rest (i + 1)
    | .error _ => runLoopReasoning model beh rest (i + 1)

/-- The result-log write loop (`for result in results: f.write(json.dumps(result,
ensure_ascii=False) + '\n')`): one line per collected result, in order.
`dumps` stands for the external JSON serializer. -/
def writeLog {α : Type} (dumps : α → String) (results : List α) : List String :=
  results.map (fun r => dumps r ++ "\n")

/-- The per-model summary of the direct script (lines 129–134). -/
structure ModelRunSummary where
  accuracy : Rat
  results : List EvalResult
  output_file : String

/-- `final_accuracy = sum(r['is_correct'] for r in results) / len(results) if results else 0`
(line 129): `sum` over booleans counts the `True` entries. -/
def mkSummary (results : List EvalResult) (output_file : String) : ModelRunSummary :=
  { accuracy :=
      if results.isEmpty then 0
      else (results.countP (fun r => r.is_correct) : Rat) / (results.length : Rat)
    results := results
    output_file := output_file }

/-- The per-model summary of the reasoning script (lines 150–160). -/
structure ReasoningRunSummary where
  accuracy : Rat
  avg_reasoning_length : Rat
  reasoning_usage_rate : Rat
  results : List ReasoningEvalResult
  output_file : String

/-- Lines 150–152 of `indommlu_eval_reasoning.py`: the three guarded
divisions over the collected results. -/
def mkReasoningSummary (results : List ReasoningEvalResult) (output_file : String) :
    ReasoningRunSummary :=
  { accuracy :=
      if results.isEmpty then 0
      else (results.countP (fun r => r.is_correct) : Rat) / (results.length : Rat)
    avg_reasoning_length :=
      if results.isEmpty then 0
      else ((results.map (fun r => r.reasoning_length)).sum : Rat) / (results.length : Rat)
    reasoning_usage_rate :=
      if results.isEmpty then 0
      else (results.countP (fun r => 0 < r.reasoning_length) : Rat) / (results.length : Rat)
    results := results
    output_file := output_file }

/-- Observable effects of a run, for the pre-flight ordering claims:
reading the dataset file, one remote completion call per attempted item,
and writing a result file. -/
inductive Effect where
  | readDataset : Effect
  | apiCall : Nat → Effect
  | writeResultFile : Effect
deriving DecidableEq, Repr

/-- The control flow of `main` in `indommlu_eval.py` as an effect trace plus
the fatal message printed, if any.  The client construction performs no
network activity; then the credential check (line 49) returns early, then
the dataset is read (line 62) and a missing file returns early, then the
loop issues one completion call per filtered item per model and writes one
result file per model. -/
def runMain (key : Option String) (file : Option (List QuestionItem))
    (models : List String) : List Effect × Option String :=
  if !hasKey key then
    ([], some "Error: OPENROUTER_API_KEY environment variable not set!")
  else
    match file with
    | none => ([Effect.readDataset], some "Error: indoMMLU.jsonl file not found!")
    | some data =>
      let filtered := filterDataset data
      (Effect.readDataset ::
        (models.map (fun _ =>
          (List.range filtered.length).map Effect.apiCall ++ [Effect.writeResultFile])).flatten,
        none)

/-- The control flow of `main` in `indommlu_eval_reasoning.py`
(lines 57–79); structurally identical to the direct variant. -/
def runMainReasoning (key : Option String) (file : Option (List QuestionItem))
    (models : List String) : List Effect × Option String :=
  if !hasKey key then
    ([], some "Error: OPENROUTER_API_KEY environment variable not set!")
  else
    match file with
    | none => ([Effect.readDataset], some "Error: indoMMLU.jsonl file not found!")
    | some data =>
      let filtered := filterDataset data
      (Effect.readDataset ::
        (models.map (fun _ =>
          (List.range filtered.length).map Effect.apiCall ++ [Effect.writeResultFile])).flatten,
        none)

/-- Demo item used for concrete instances: a well-formed `Seleksi PTN`
record with key `k` and id `n`. -/
def demoItem (n : String) (k : String) : QuestionItem :=
  { id := n
    subject := "Matematika"
    level := "Seleksi PTN"
    soal := "Berapakah 1 + 1?"
    jawaban := "A. 2\nB. 3\nC. 4\nD. 5\nE. 6"
    kunci := k
    sumber := "demo"
    is_for_fewshot := "0" }

/-- A five-item filtered dataset. -/
def demoItems : List QuestionItem :=
  [demoItem "1" "A", demoItem "2" "B", demoItem "3" "C", demoItem "4" "D", demoItem "5" "E"]

/-- A completion behaviour where only the third item's call (0-based
position 2) raises; every other call answers with the item's key. -/
def demoBeh : Nat → QuestionItem → Except String String :=
  fun i item => if i = 2 then .error "ApiError" else .ok item.kunci

/-- Claim C2: the dataset filter returns exactly the ordered subsequence of
items with `level == "Seleksi PTN"` and `is_for_fewshot == "0"`: an item is
in the output iff it is in the input and satisfies both conditions, and the
output is a sublist of the input (relative order preserved). -/
theorem dataset_filter_exact (data : List QuestionItem) :
    (∀ item : QuestionItem,
        item ∈ filterDataset data ↔
          item ∈ data ∧ item.level = "Seleksi PTN" ∧ item.is_for_fewshot = "0") ∧
    (filterDataset data).Sublist data := by
  refine ⟨fun item => ?_, List.filter_sublist data⟩
  simp [filterDataset, List.mem_filter, and_assoc]

/-- Claim C5: the direct-variant extractor returns exactly the raw output
with surrounding whitespace trimmed and no other transformation; the
trimmed string becomes `predicted` whatever it is, `is_correct` holds
exactly when it equals `kunci`, and the concrete input `" A "` yields
prediction `"A"`. -/
theorem direct_extractor_trim_only (model : String) (item : QuestionItem) (content : String) :
    (mkResult model item content).predicted = pyStrip content.data ∧
    ((mkResult model item content).is_correct = true ↔ pyStrip content.data = item.kunci.data) ∧
    pyStrip " A ".data = ['A'] := by
  refine ⟨rfl, ?_, by decide⟩
  simp [mkResult]

/-- Claim C6: the prompt builder is a pure deterministic function of the
item (equal items yield byte-identical prompts, in both scripts), and the
prompt embeds the item's question text `soal` and options block `jawaban`
verbatim, as contiguous untruncated segments of the prompt. -/
theorem prompt_builder_pure_verbatim (item : QuestionItem) :
    (∀ a b : QuestionItem, a = b →
        buildPrompt a = buildPrompt b ∧ buildPromptReasoning a = buildPromptReasoning b) ∧
    (∃ s t, (buildPrompt item).data = s ++ item.soal.data ++ t) ∧
    (∃ s t, (buildPrompt item).data = s ++ item.jawaban.data ++ t) ∧
    (∃ s t, (buildPromptReasoning item).data = s ++ item.soal.data ++ t) ∧
    (∃ s t, (buildPromptReasoning item).data = s ++ item.jawaban.data ++ t) := by
  refine ⟨fun a b h => by rw [h]; exact ⟨rfl, rfl⟩, ?_, ?_, ?_, ?_⟩
  · exact ⟨("Ini adalah soal ").data ++ item.subject.data ++ (" untuk ").data ++
      item.level.data ++ (". Pilihlah salah satu jawaban yang dianggap benar!\n\n").data,
      ("\n").data ++ item.jawaban.data ++
        ("\n\nJawab HANYA dengan huruf pilihan saja (A, B, C, D, atau E). Jangan tambahkan penjelasan awal atau akhir. Hanya output huruf pilihan saja.\nJawaban:").data,
      by simp [buildPrompt, String.data_append]⟩
  · exact ⟨("Ini adalah soal ").data ++ item.subject.data ++ (" untuk ").data ++
      item.level.data ++ (". Pilihlah salah satu jawaban yang dianggap benar!\n\n").data ++
      item.soal.data ++ ("\n").data,
      ("\n\nJawab HANYA dengan huruf pilihan saja (A, B, C, D, atau E). Jangan tambahkan penjelasan awal atau akhir. Hanya output huruf pilihan saja.\nJawaban:").data,
      by simp [buildPrompt, String.data_append]⟩
  · exact ⟨("Ini adalah soal ").data ++ item.subject.data ++ (" untuk ").data ++
      item.level.data ++ (". Pilihlah salah satu jawaban yang dianggap benar!\n\n").data,
      ("\n").data ++ item.jawaban.data ++
        ("\n\nJawab HANYA dengan huruf pilihan saja (A, B, C, D, atau E). Jangan tambahkan penjelasan awal atau akhir. Hanya output huruf pilihan saja.\nJawaban:").data,
      by simp [buildPromptReasoning, String.data_append]⟩
  · exact ⟨("Ini adalah soal ").data ++ item.subject.data ++ (" untuk ").data ++
      item.level.data ++ (". Pilihlah salah satu jawaban yang dianggap benar!\n\n").data ++
      item.soal.data ++ ("\n").data,
      ("\n\nJawab HANYA dengan huruf pilihan saja (A, B, C, D, atau E). Jangan tambahkan penjelasan awal atau akhir. Hanya output huruf pilihan saja.\nJawaban:").data,
      by simp [buildPromptReasoning, String.data_append]⟩

/-- Witness for C6: both implications discharged at a concrete pair of
equal items. -/
theorem prompt_builder_pure_verbatim_witness :
    buildPrompt (demoItem "1" "A") = buildPrompt (demoItem "1" "A") ∧
    buildPromptReasoning (demoItem "1" "A") = buildPromptReasoning (demoItem "1" "A") :=
  (prompt_builder_pure_verbatim (demoItem "1" "A")).1 (demoItem "1" "A") (demoItem "1" "A") rfl

/-- Claim C9: in the reasoning variant, `predicted`, `correct` and
`is_correct` depend only on the final answer text and the ground-truth key,
never on the reasoning side-channel: two completions with the same content
but different (or absent) reasoning text agree on all three fields. -/
theorem reasoning_noninterference (model : String) (item : QuestionItem)
    (content : String) (rc1 rc2 : Option String) :
    (mkReasoningResult model item content rc1).predicted
        = (mkReasoningResult model item content rc2).predicted ∧
    (mkReasoningResult model item content rc1).correct
        = (mkReasoningResult model item content rc2).correct ∧
    (mkReasoningResult model item content rc1).is_correct
        = (mkReasoningResult model item content rc2).is_correct :=
  ⟨rfl, rfl, rfl⟩

/-- Claim C10: a reasoning side-channel that is present but empty is
accounted for like an absent one: `reasoning_length` is 0 and the item is
excluded from the numerator of `reasoning_usage_rate`, while
`reasoning_content` still records the empty string. -/
theorem empty_reasoning_like_absent (model : String) (item : QuestionItem)
    (content : String) (rest : List ReasoningEvalResult) :
    (mkReasoningResult model item content (some "")).reasoning_length = 0 ∧
    (mkReasoningResult model item content (some "")).reasoning_content = some "" ∧
    List.countP (fun r => 0 < r.reasoning_length)
        (mkReasoningResult model item content (some "") :: rest) =
      List.countP (fun r => 0 < r.reasoning_length) rest := by
  refine ⟨rfl, rfl, ?_⟩
  simp [List.countP_cons, mkReasoningResult, pyTruthyLen]

/-- Claim C4: `accuracy` is the number of correct results divided by the
number of collected results, the divisor is nonzero whenever the division
is performed, and an empty result sequence yields exactly 0 — in the
reasoning variant `avg_reasoning_length` and `reasoning_usage_rate` are
likewise 0 on an empty sequence. -/
theorem summary_guarded_division :
    (∀ (results : List EvalResult) (file : String), results ≠ [] →
        (mkSummary results file).accuracy
            = (results.countP (fun r => r.is_correct) : Rat) / (results.length : Rat)
          ∧ ((results.length : Rat) ≠ 0)) ∧
    (∀ file : String, (mkSummary [] file).accuracy = 0) ∧
    (∀ (results : List ReasoningEvalResult) (file : String), results ≠ [] →
        (mkReasoningSummary results file).accuracy
            = (results.countP (fun r => r.is_correct) : Rat) / (results.length : Rat)
          ∧ ((results.length : Rat) ≠ 0)) ∧
    (∀ file : String,
        (mkReasoningSummary [] file).accuracy = 0 ∧
        (mkReasoningSummary [] file).avg_reasoning_length = 0 ∧
        (mkReasoningSummary [] file).reasoning_usage_rate = 0) := by
  refine ⟨?_, fun _ => rfl, ?_, fun _ => ⟨rfl, rfl, rfl⟩⟩
  · intro results file h
    have hlen : (results.length : Rat) ≠ 0 := by
      have : results.length ≠ 0 := by simpa [List.length_eq_zero] using h
      exact_mod_cast this
    exact ⟨by simp [mkSummary, List.isEmpty_iff, h], hlen⟩
  · intro results file h
    have hlen : (results.length : Rat) ≠ 0 := by
      have : results.length ≠ 0 := by simpa [List.length_eq_zero] using h
      exact_mod_cast this
    exact ⟨by simp [mkReasoningSummary, List.isEmpty_iff, h], hlen⟩

/-- Witness for C4: the two nonempty-sequence implications discharged at
concrete singleton result sequences. -/
theorem summary_guarded_division_witness :
    ((mkSummary [mkResult "m" (demoItem "1" "A") "A"] "out").accuracy
        = (([mkResult "m" (demoItem "1" "A") "A"].countP (fun r => r.is_correct) : Rat)
            / (([mkResult "m" (demoItem "1" "A") "A"].length : Rat)))
      ∧ (([mkResult "m" (demoItem "1" "A") "A"].length : Rat) ≠ 0)) ∧
    ((mkReasoningSummary [mkReasoningResult "m" (demoItem "1" "A") "A" none] "out").accuracy
        = (([mkReasoningResult "m" (demoItem "1" "A") "A" none].countP (fun r => r.is_correct) : Rat)
            / (([mkReasoningResult "m" (demoItem "1" "A") "A" none].length : Rat)))
      ∧ (([mkReasoningResult "m" (demoItem "1" "A") "A" none].length : Rat) ≠ 0)) :=
  ⟨summary_guarded_division.1 [mkResult "m" (demoItem "1" "A") "A"] "out" (by simp),
   summary_guarded_division.2.2.1 [mkReasoningResult "m" (demoItem "1" "A") "A" none] "out" (by simp)⟩

/-- Claim C7: `reasoning_length` is the character count of the reasoning
side-channel text, or 0 when the channel is absent; a result with
`reasoning_length = 0` does not count toward the numerator of
`reasoning_usage_rate`; and over a nonempty result sequence
`reasoning_usage_rate` is the fraction of results with nonzero
`reasoning_length` and `avg_reasoning_length` is the sum of the lengths
divided by the count of results. -/
theorem reasoning_length_accounting :
    (∀ (model : String) (item : QuestionItem) (content : String) (rc : Option String),
        (mkReasoningResult model item content rc).reasoning_length
          = (rc.map String.length).getD 0) ∧
    (∀ (r : ReasoningEvalResult) (rest : List ReasoningEvalResult),
        r.reasoning_length = 0 →
          List.countP (fun x => 0 < x.reasoning_length) (r :: rest)
            = List.countP (fun x => 0 < x.reasoning_length) rest) ∧
    (∀ (results : List ReasoningEvalResult) (file : String), results ≠ [] →
        (mkReasoningSummary results file).reasoning_usage_rate
            = (results.countP (fun r => 0 < r.reasoning_length) : Rat) / (results.length : Rat)
          ∧ (mkReasoningSummary results file).avg_reasoning_length
            = (((results.map (fun r => r.reasoning_length)).sum : Nat) : Rat) / (results.length : Rat)) := by
  refine ⟨?_, ?_, ?_⟩
  · intro model item content rc
    cases rc with
    | none => rfl
    | some s =>
      by_cases hs : s = ""
      · subst hs; rfl
      · simp [mkReasoningResult, pyTruthyLen, hs]
  · intro r rest h
    simp [List.countP_cons, h]
  · intro results file h
    exact ⟨by simp [mkReasoningSummary, List.isEmpty_iff, h],
           by simp [mkReasoningSummary, List.isEmpty_iff, h, Function.comp_def]⟩

/-- Witness for C7: the second and third parts discharged at a concrete
zero-length result and a concrete singleton sequence. -/
theorem reasoning_length_accounting_witness :
    (List.countP (fun x => 0 < x.reasoning_length)
        (mkReasoningResult "m" (demoItem "1" "A") "A" none :: ([] : List ReasoningEvalResult))
      = List.countP (fun x => 0 < x.reasoning_length) ([] : List ReasoningEvalResult)) ∧
    ((mkReasoningSummary [mkReasoningResult "m" (demoItem "1" "A") "A" none] "out").reasoning_usage_rate
        = (([mkReasoningResult "m" (demoItem "1" "A") "A" none].countP
              (fun r => 0 < r.reasoning_length) : Rat)
            / (([mkReasoningResult "m" (demoItem "1" "A") "A" none].length : Rat)))
      ∧ (mkReasoningSummary [mkReasoningResult "m" (demoItem "1" "A") "A" none] "out").avg_reasoning_length
        = ((((([mkReasoningResult "m" (demoItem "1" "A") "A" none].map
              (fun r => r.reasoning_length)).sum : Nat)) : Rat)
            / (([mkReasoningResult "m" (demoItem "1" "A") "A" none].length : Rat)))) :=
  ⟨reasoning_length_accounting.2.1 (mkReasoningResult "m" (demoItem "1" "A") "A" none) [] rfl,
   reasoning_length_accounting.2.2 [mkReasoningResult "m" (demoItem "1" "A") "A" none] "out" (by simp)⟩

/-- Claim C8: with the credential absent the run terminates with a
user-visible message and an empty effect trace — the dataset is never read,
no completion call is made, no result file is written; with the credential
present and the dataset file missing the run terminates with a user-visible
message after only reading the dataset — still no completion call and no
result file write.  Both scripts behave identically. -/
theorem preflight_aborts_before_effects :
    (∀ (file : Option (List QuestionItem)) (models : List String),
        runMain none file models
            = ([], some "Error: OPENROUTER_API_KEY environment variable not set!")
          ∧ runMainReasoning none file models
            = ([], some "Error: OPENROUTER_API_KEY environment variable not set!")
          ∧ Effect.readDataset ∉ (runMain none file models).1
          ∧ (∀ i, Effect.apiCall i ∉ (runMain none file models).1)
          ∧ Effect.writeResultFile ∉ (runMain none file models).1) ∧
    (∀ (key : Option String) (models : List String), hasKey key = true →
        runMain key none models
            = ([Effect.readDataset], some "Error: indoMMLU.jsonl file not found!")
          ∧ runMainReasoning key none models
            = ([Effect.readDataset], some "Error: indoMMLU.jsonl file not found!")
          ∧ (∀ i, Effect.apiCall i ∉ (runMain key none models).1)
          ∧ Effect.writeResultFile ∉ (runMain key none models).1) := by
  constructor
  · intro file models
    refine ⟨rfl, rfl, by simp [runMain, hasKey], fun i => by simp [runMain, hasKey],
      by simp [runMain, hasKey]⟩
  · intro key models h
    refine ⟨by simp [runMain, h], by simp [runMainReasoning, h],
      fun i => by simp [runMain, h], by simp [runMain, h]⟩

/-- Witness for C8: the missing-dataset implication discharged at a
concrete present credential. -/
theorem preflight_aborts_before_effects_witness :
    runMain (some "sk-test") none ["anthropic/claude-sonnet-4"]
        = ([Effect.readDataset], some "Error: indoMMLU.jsonl file not found!")
      ∧ runMainReasoning (some "sk-test") none ["anthropic/claude-sonnet-4"]
        = ([Effect.readDataset], some "Error: indoMMLU.jsonl file not found!")
      ∧ (∀ i, Effect.apiCall i ∉ (runMain (some "sk-test") none ["anthropic/claude-sonnet-4"]).1)
      ∧ Effect.writeResultFile ∉ (runMain (some "sk-test") none ["anthropic/claude-sonnet-4"]).1 :=
  preflight_aborts_before_effects.2 (some "sk-test") ["anthropic/claude-sonnet-4"] rfl

/-- Claim C3: the evaluation loop catches per-item errors — the collected
results are exactly the results of the items whose completion succeeds, in
order (failing items contribute nothing and remaining items are still
processed); the written log has exactly one line per collected result; and
on the concrete five-item dataset where only the third call raises, the
result sequence is exactly the four results of items 1, 2, 4, 5.  Both
script variants are covered. -/
theorem eval_loop_skips_failing_items :
    (∀ (model : String) (beh : Nat → QuestionItem → Except String String)
        (items : List QuestionItem) (i : Nat),
        runLoop model beh items i =
          (List.enumFrom i items).filterMap (fun p =>
            match beh p.1 p.2 with
            | .ok content => some (mkResult model p.2 content)
            | .error _ => none)) ∧
    (∀ (model : String) (beh : Nat → QuestionItem → Except String (String × Option String))
        (items : List QuestionItem) (i : Nat),
        runLoopReasoning model beh items i =
          (List.enumFrom i items).filterMap (fun p =>
            match beh p.1 p.2 with
            | .ok (content, rc) => some (mkReasoningResult model p.2 content rc)
            | .error _ => none)) ∧
    (∀ (dumps : EvalResult → String) (results : List EvalResult),
        (writeLog dumps results).length = results.length) ∧
    ((runLoop "m" demoBeh demoItems 0).map (fun r => r.id) = ["1", "2", "4", "5"] ∧
      (runLoop "m" demoBeh demoItems 0).length = 4 ∧
      (∀ dumps, (writeLog dumps (runLoop "m" demoBeh demoItems 0)).length = 4)) := by
  refine ⟨?_, ?_, ?_, ?_, ?_, ?_⟩
  · intro model beh items
    induction items with
    | nil => intro i; rfl
    | cons item rest ih =>
      intro i
      cases h : beh i item with
      | ok content => simp [runLoop, List.enumFrom, h, ih]
      | error e => simp [runLoop, List.enumFrom, h, ih]
  · intro model beh items
    induction items with
    | nil => intro i; rfl
    | cons item rest ih =>
      intro i
      cases h : beh i item with
      | ok contentRc =>
        cases contentRc with
        | mk content rc => simp [runLoopReasoning, List.enumFrom, h, ih]
      | error e => simp [runLoopReasoning, List.enumFrom, h, ih]
  · intro dumps results
    simp [writeLog]
  · decide
  · decide
  · intro dumps
    simp [writeLog]
    decide

/-- Position-based word-boundary condition, generalized by the character
immediately preceding the scanned suffix (`prev = none` at the start of
the string): position `i` of `l` holds a standalone answer letter when the
letter is in `[ABCDE]`, its left neighbour (or `prev` at `i = 0`) is absent
or a non-word character, and its right neighbour is absent or a non-word
character. -/
def standaloneAtAux (prev : Option Char) (l : List Char) (i : Nat) : Prop :=
  i < l.length ∧ isAnswerLetter (l.getD i ' ') = true ∧
    (if i = 0 then leftOk prev = true else isWordChar (l.getD (i - 1) ' ') = false) ∧
    (i + 1 = l.length ∨ isWordChar (l.getD (i + 1) ' ') = false)

instance (prev : Option Char) (l : List Char) (i : Nat) :
    Decidable (standaloneAtAux prev l i) :=
  inferInstanceAs (Decidable (_ ∧ _ ∧ _ ∧ _))

/-- Position `i` of `l` holds a standalone answer letter bounded by word
boundaries, as in the pattern `\b([ABCDE])\b`. -/
def standaloneAt (l : List Char) (i : Nat) : Prop :=
  standaloneAtAux none l i

instance (l : List Char) (i : Nat) : Decidable (standaloneAt l i) :=
  inferInstanceAs (Decidable (standaloneAtAux none l i))

lemma standaloneAtAux_nil (prev : Option Char) (i : Nat) :
    ¬ standaloneAtAux prev [] i := by
  simp [standaloneAtAux]

lemma standaloneAtAux_zero (prev : Option Char) (c : Char) (rest : List Char) :
    standaloneAtAux prev (c :: rest) 0 ↔
      (isAnswerLetter c && leftOk prev && rightOk rest) = true := by
  cases rest with
  | nil => simp [standaloneAtAux, rightOk]
  | cons d rest' =>
    constructor
    · rintro ⟨-, h2, h3, h4⟩
      have hd : isWordChar d = false := by
        rcases h4 with h | h
        · exact absurd h (by simp [List.length_cons])
        · simpa using h
      simp only [if_pos rfl] at h3
      simp [rightOk, Bool.and_eq_true, Bool.not_eq_true']
      exact ⟨⟨by simpa using h2, h3⟩, hd⟩
    · intro h
      rw [Bool.and_eq_true, Bool.and_eq_true] at h
      refine ⟨by simp, by simpa using h.1.1, by simpa using h.1.2, Or.inr ?_⟩
      have := h.2
      simp only [rightOk, Bool.not_eq_true'] at this
      simpa using this

lemma standaloneAtAux_succ (prev : Option Char) (c : Char) (rest : List Char) (i : Nat) :
    standaloneAtAux prev (c :: rest) (i + 1) ↔ standaloneAtAux (some c) rest i := by
  cases i with
  | zero =>
    simp [standaloneAtAux, leftOk, Bool.not_eq_true']
    intro _ _ _
    constructor
    · rintro (h | h)
      · exact Or.inl h.symm
      · exact Or.inr h
    · rintro (h | h)
      · exact Or.inl h.symm
      · exact Or.inr h
  | succ k => simp [standaloneAtAux, Nat.succ_lt_succ_iff]

lemma findStandalone_none_iff (prev : Option Char) (l : List Char) :
    findStandalone prev l = none ↔ ∀ i, ¬ standaloneAtAux prev l i := by
  induction l generalizing prev with
  | nil =>
    constructor
    · intro _ i
      exact standaloneAtAux_nil prev i
    · intro _
      rfl
  | cons c rest ih =>
    by_cases hc : (isAnswerLetter c && leftOk prev && rightOk rest) = true
    · constructor
      · intro h
        exfalso
        simp [findStandalone, hc] at h
      · intro h
        exact absurd ((standaloneAtAux_zero prev c rest).mpr hc) (h 0)
    · constructor
      · intro h i
        cases i with
        | zero =>
          rw [standaloneAtAux_zero]
          exact hc
        | succ k =>
          rw [standaloneAtAux_succ]
          have h' : findStandalone (some c) rest = none := by
            simpa [findStandalone, hc] using h
          exact (ih (some c)).mp h' k
      · intro h
        have h0 : findStandalone (some c) rest = none :=
          (ih (some c)).mpr
            (fun k hk => h (k + 1) ((standaloneAtAux_succ prev c rest k).mpr hk))
        simp [findStandalone, hc, h0]

lemma findStandalone_some_iff (prev : Option Char) (l : List Char) (a : Char) :
    findStandalone prev l = some a ↔
      ∃ i, standaloneAtAux prev l i ∧ (∀ j, j < i → ¬ standaloneAtAux prev l j)
        ∧ l.getD i ' ' = a := by
  induction l generalizing prev with
  | nil =>
    constructor
    · intro h
      exact absurd h (by simp [findStandalone])
    · rintro ⟨i, hi, -, -⟩
      exact absurd hi (standaloneAtAux_nil prev i)
  | cons c rest ih =>
    by_cases hc : (isAnswerLetter c && leftOk prev && rightOk rest) = true
    · constructor
      · intro h
        have hca : c = a := by simpa [findStandalone, hc] using h
        exact ⟨0, (standaloneAtAux_zero prev c rest).mpr hc,
          fun j hj => absurd hj (Nat.not_lt_zero j), by simpa using hca⟩
      · rintro ⟨i, hi, hmin, hgd⟩
        cases i with
        | zero =>
          simp [findStandalone, hc]
          simpa using hgd
        | succ k =>
          exact absurd ((standaloneAtAux_zero prev c rest).mpr hc) (hmin 0 (Nat.succ_pos k))
    · constructor
      · intro h
        have h' : findStandalone (some c) rest = some a := by
          simpa [findStandalone, hc] using h
        obtain ⟨k, hk, hkmin, hkgd⟩ := (ih (some c)).mp h'
        refine ⟨k + 1, (standaloneAtAux_succ prev c rest k).mpr hk, ?_, ?_⟩
        · intro j hj
          cases j with
          | zero =>
            rw [standaloneAtAux_zero]
            exact hc
          | succ m =>
            rw [standaloneAtAux_succ]
            exact hkmin m (Nat.lt_of_succ_lt_succ hj)
        · simpa using hkgd
      · rintro ⟨i, hi, hmin, hgd⟩
        cases i with
        | zero =>
          exact absurd ((standaloneAtAux_zero prev c rest).mp hi) hc
        | succ k =>
          have h' : findStandalone (some c) rest = some a :=
            (ih (some c)).mpr ⟨k, (standaloneAtAux_succ prev c rest k).mp hi,
              fun m hm hcon =>
                hmin (m + 1) (Nat.succ_lt_succ hm)
                  ((standaloneAtAux_succ prev c rest m).mpr hcon),
              by simpa using hgd⟩
          simpa [findStandalone, hc] using h'

/-- Claim C1: the reasoning-variant answer extraction, applied to the final
answer text, follows the three tiers in order on the trimmed text: (1) if
some position holds a standalone answer letter in `[ABCDE]` bounded by word
boundaries, the letter at the first such position is the prediction; (2)
otherwise, if the text is nonempty and its first character is one of A–E,
that character is the prediction; (3) otherwise the full trimmed text is
the prediction verbatim.  The extraction is a total function, so it never
raises an error on any input string. -/
theorem reasoning_extractor_three_tiers (content : List Char) :
    (∀ i, standaloneAt (pyStrip content) i →
        (∀ j, j < i → ¬ standaloneAt (pyStrip content) j) →
        reasoningExtract content = [(pyStrip content).getD i ' ']) ∧
    ((∀ i, ¬ standaloneAt (pyStrip content) i) →
        pyStrip content ≠ [] → isAnswerLetter ((pyStrip content).headD ' ') = true →
        reasoningExtract content = [(pyStrip content).headD ' ']) ∧
    ((∀ i, ¬ standaloneAt (pyStrip content) i) →
        (pyStrip content = [] ∨ isAnswerLetter ((pyStrip content).headD ' ') = false) →
        reasoningExtract content = pyStrip content) := by
  refine ⟨?_, ?_, ?_⟩
  · intro i hi hmin
    have h : findStandalone none (pyStrip content) = some ((pyStrip content).getD i ' ') :=
      (findStandalone_some_iff none (pyStrip content) _).mpr ⟨i, hi, hmin, rfl⟩
    simp [reasoningExtract, extractLetter, h]
  · intro hnone hne hhead
    have h : findStandalone none (pyStrip content) = none :=
      (findStandalone_none_iff none (pyStrip content)).mpr hnone
    unfold reasoningExtract extractLetter
    rw [h]
    cases hp : pyStrip content with
    | nil => exact absurd hp hne
    | cons c t =>
      have : isAnswerLetter c = true := by
        simpa [hp] using hhead
      simp [this]
  · intro hnone hcase
    have h : findStandalone none (pyStrip content) = none :=
      (findStandalone_none_iff none (pyStrip content)).mpr hnone
    unfold reasoningExtract extractLetter
    rw [h]
    cases hp : pyStrip content with
    | nil => rfl
    | cons c t =>
      have : isAnswerLetter c = false := by
        rcases hcase with hc | hc
        · rw [hp] at hc
          exact absurd hc (by simp)
        · simpa [hp] using hc
      simp [this]

/-- Witness for C1: tier 1 discharged at the one-letter input `"B"`
(standalone match at position 0), tier 3 discharged at the empty input. -/
theorem reasoning_extractor_three_tiers_witness :
    reasoningExtract ['B'] = ['B'] ∧ reasoningExtract [] = [] :=
  ⟨(reasoning_extractor_three_tiers ['B']).1 0 (by decide)
      (fun j hj => absurd hj (Nat.not_lt_zero j)),
   (reasoning_extractor_three_tiers []).2.2
      (fun i h => by simp [standaloneAt, standaloneAtAux, pyStrip] at h)
      (Or.inl rfl)⟩
